import Mathlib

/-!
Shallow embedding of the realtime connectivity core of the cocobase
JavaScript SDK (`src/realtime/websockets.ts` and
`src/realtime/multiplayer.ts`), together with theorems checking the
natural-language specification of that core against the code.

Conventions of the embedding:
* JS objects parsed from inbound JSON are modelled by `Frame`, keeping the
  fields the handlers actually read (`type`, `event`, `your_id`, `error`,
  `message`), each an `Option String` (`none` = field absent).
* JS truthiness of an optional string field (`data.x` used in boolean
  position) is `truthy`: absent or empty string is falsy.
* Promise settlement is one-shot: `resolve`/`reject` after the promise has
  settled are no-ops, which `GameClient.settle` models directly.
* Timers and socket callbacks are driven by explicit event lists; each
  state machine is a fold of a step function over those events.
-/

/-- JS truthiness of an optional string field: `data.x` is truthy exactly
when the field is present and not the empty string. -/
def truthy : Option String → Bool
  | none => false
  | some s => if s = "" then false else true

/-- An inbound frame after `JSON.parse`, restricted to the fields the
GameClient message handler reads. `none` models an absent field. -/
structure Frame where
  type : Option String := none
  event : Option String := none
  your_id : Option String := none
  error : Option String := none
  message : Option String := none
deriving DecidableEq, Repr

/-- `data.type || data.event || "message"` from `GameClient`'s `onmessage`
handler (multiplayer.ts line 198). -/
def Frame.eventType (f : Frame) : String :=
  if truthy f.type then f.type.getD ""
  else if truthy f.event then f.event.getD ""
  else "message"

/-- The connection-confirmation test of multiplayer.ts lines 201–205:
`eventType === "connected" || eventType === "welcome" || data.your_id`. -/
def Frame.isConfirmation (f : Frame) : Prop :=
  f.eventType = "connected" ∨ f.eventType = "welcome" ∨ truthy f.your_id = true

instance (f : Frame) : Decidable f.isConfirmation := by
  unfold Frame.isConfirmation; infer_instance

/-- The error-frame test of multiplayer.ts line 216:
`eventType === "error" || data.error`. -/
def Frame.isErrorFrame (f : Frame) : Prop :=
  f.eventType = "error" ∨ truthy f.error = true

instance (f : Frame) : Decidable f.isErrorFrame := by
  unfold Frame.isErrorFrame; infer_instance

/-- `data.error || data.message || "Connection error"`, the message of the
rejection error built at multiplayer.ts line 219. -/
def Frame.errMsg (f : Frame) : String :=
  if truthy f.error then f.error.getD ""
  else if truthy f.message then f.message.getD ""
  else "Connection error"

/-- Outcome recorded for the one-shot connect promise. -/
inductive Settle where
  | resolved
  | rejected (msg : String)
deriving DecidableEq, Repr

/-- Connection phase of one GameClient connect attempt.  `connected` is the
code's `_isConnected = true`; `awaiting` is socket-open before any
confirmation frame; `disconnected` is after the socket close event. -/
inductive Phase where
  | connecting
  | awaiting
  | connected
  | disconnected
deriving DecidableEq, Repr

/-- State of a `GameClient` connect attempt: the `_isConnected`/`_playerId`
fields of the class, the settlement state of the promise returned by
`connect`, whether the ping interval is running, and whether the code has
requested `ws.close()` (as the watchdog does). -/
structure GameClient where
  phase : Phase := .connecting
  playerId : Option String := none
  settled : Option Settle := none
  pingActive : Bool := false
  closeRequested : Bool := false
deriving DecidableEq, Repr

/-- The class field `_isConnected`, true exactly in phase `connected`. -/
def GameClient.isConnected (s : GameClient) : Bool :=
  match s.phase with
  | .connected => true
  | _ => false

/-- The initial state right after `connect(options)` constructed the
socket: no identity, promise pending, nothing running yet. -/
def GameClient.init : GameClient := {}

/-- One-shot promise settlement: `resolve`/`reject` on an already settled
promise are no-ops (standard JS `Promise` semantics, which the handler
relies on). -/
def GameClient.settle (s : GameClient) (r : Settle) : GameClient :=
  match s.settled with
  | some _ => s
  | none => { s with settled := some r }

/-- The `ws.onmessage` handler of `GameClient.connect`
(multiplayer.ts lines 190–229), for a frame that parsed successfully.
Returns the new state and the list of `emit` calls performed, each an
event name with its payload (`some f` when the payload is the parsed
frame itself, `none` for synthetic payloads). -/
def GameClient.handleMessage (s : GameClient) (f : Frame) :
    GameClient × List (String × Option Frame) :=
  if f.type = some "pong" then
    (s, [])
  else if f.isConfirmation then
    let s1 : GameClient :=
      { s with phase := .connected,
               playerId := if truthy f.your_id then f.your_id else s.playerId }
    (s1.settle .resolved, [("connected", some f)])
  else if f.isErrorFrame then
    (if s.isConnected then s else s.settle (.rejected f.errMsg),
     [("error", some f)])
  else
    (s, [(f.eventType, some f)])

/-- Events delivered to one GameClient connect attempt: socket open, an
inbound parsed frame, a low-level socket error, the socket close event,
and the 10-second connect watchdog firing. -/
inductive GEv where
  | sockOpen
  | sockMsg (f : Frame)
  | sockErr
  | sockClose (wasClean : Bool)
  | watchdogFire
deriving DecidableEq, Repr

/-- One step of the GameClient connect attempt, faithful to the handlers
installed by `connect` (multiplayer.ts lines 170–263):
* `onopen` sends the init frame, starts the ping interval (phase
  `awaiting`);
* `onmessage` is `handleMessage`;
* `onerror` emits `error` and rejects if not yet `_isConnected`;
* `onclose` clears `_isConnected` and the ping interval and emits
  `disconnected` (it never settles the promise);
* the watchdog (lines 258–263) checks `!_isConnected`, and if so requests
  `ws.close()` and rejects with `"Connection timeout"`. -/
def GameClient.step (s : GameClient) : GEv → GameClient × List (String × Option Frame)
  | .sockOpen => ({ s with phase := .awaiting, pingActive := true }, [])
  | .sockMsg f => s.handleMessage f
  | .sockErr =>
      (if s.isConnected then s else s.settle (.rejected "WebSocket connection failed"),
       [("error", none)])
  | .sockClose _ =>
      ({ s with phase := .disconnected, pingActive := false },
       [("disconnected", none)])
  | .watchdogFire =>
      if s.isConnected then (s, [])
      else ({ s.settle (.rejected "Connection timeout") with closeRequested := true }, [])

/-- Run a list of events, accumulating all emitted events in order. -/
def GameClient.run (s : GameClient) : List GEv → GameClient × List (String × Option Frame)
  | [] => (s, [])
  | e :: evs =>
      let p := s.step e
      let q := p.1.run evs
      (q.1, p.2 ++ q.2)

/-- One listener invocation produced by dispatch: a type-specific listener
receives the payload directly; a wildcard (`"*"`) listener receives the
`{event, data}` wrapper (modelled by keeping the event name alongside). -/
inductive LInv where
  | plain (cb : Nat) (payload : Option Frame)
  | wildcard (cb : Nat) (event : String) (payload : Option Frame)
deriving DecidableEq, Repr

/-- The payload a listener invocation received. -/
def LInv.payload : LInv → Option Frame
  | .plain _ p => p
  | .wildcard _ _ p => p

/-- `GameClient.emit` (multiplayer.ts lines 422–445) for one emitted
event, against a registry of `(event, callback)` pairs: the listeners
registered for the event fire in order, then the listeners registered for
`"*"` fire with the wrapped payload. -/
def dispatchEmit (reg : List (String × Nat)) (e : String) (p : Option Frame) : List LInv :=
  ((reg.filter (fun q => q.1 = e)).map (fun q => LInv.plain q.2 p))
    ++ ((reg.filter (fun q => q.1 = "*")).map (fun q => LInv.wildcard q.2 e p))

/-- Dispatch every emitted event of a run through the registry, in order. -/
def dispatchAll (reg : List (String × Nat)) (outs : List (String × Option Frame)) : List LInv :=
  outs.foldr (fun o acc => dispatchEmit reg o.1 o.2 ++ acc) []

/-- An outbound message handed to `ReconnectingWebSocket.send` before
`JSON.stringify`.  `message d` is ProjectBroadcast's `{type:"message",
data}` wrapper; `messageContent c` is RoomChat's `{type:"message",
content}` wrapper. -/
inductive OutMsg where
  | ping
  | message (data : String)
  | messageContent (content : String)
  | other (tag : String)
deriving DecidableEq, Repr

/-- One physical WebSocket as `ReconnectingWebSocket` sees it: a creation
index (to count socket constructions), whether anyone assigned its
`onmessage` property, and whether its readyState is OPEN. -/
structure Socket where
  gen : Nat
  hasOnMessage : Bool
  isOpen : Bool
deriving DecidableEq, Repr

/-- State of one `ReconnectingWebSocket` (websockets.ts lines 5–60):
the mutable `reconnectDelay`, the current socket (if any), whether the
ping interval is running, whether the `setTimeout` scheduled by `onclose`
is pending, and how many sockets evaluated `new WebSocket(...)` so far. -/
structure ReconnectingWebSocket where
  reconnectDelay : Nat := 1000
  ws : Option Socket := none
  pingActive : Bool := false
  pendingReconnect : Bool := false
  socketsCreated : Nat := 0
deriving DecidableEq, Repr

/-- A freshly constructed `ReconnectingWebSocket` (constructor, lines
13–16): delay at its floor, no socket, no timers. -/
def ReconnectingWebSocket.init : ReconnectingWebSocket := {}

/-- `connect()` (line 18–19): replaces `this.ws` with a brand new socket.
The new socket has no `onmessage` handler — `connect()` only installs
`onopen` and `onclose`. -/
def ReconnectingWebSocket.connect (s : ReconnectingWebSocket) : ReconnectingWebSocket :=
  { s with ws := some ⟨s.socketsCreated + 1, false, false⟩,
           socketsCreated := s.socketsCreated + 1 }

/-- `onMessage(cb)` (lines 56–59): assigns `onmessage` on the *current*
socket only; a no-op when no socket exists. -/
def ReconnectingWebSocket.onMessage (s : ReconnectingWebSocket) : ReconnectingWebSocket :=
  match s.ws with
  | none => s
  | some w => { s with ws := some { w with hasOnMessage := true } }

/-- The `onopen` handler (lines 21–31): resets `reconnectDelay` to its
floor 1000, sends the handshake, and starts the ping interval.  The
socket's readyState becomes OPEN. -/
def ReconnectingWebSocket.handleOpen (s : ReconnectingWebSocket) : ReconnectingWebSocket :=
  { s with reconnectDelay := 1000, pingActive := true,
           ws := s.ws.map (fun w => { w with isOpen := true }) }

/-- The `onclose` handler (lines 33–42): clears the ping interval and
unconditionally schedules a reconnect `setTimeout` — there is no
"intentionally closed" flag anywhere in the class. -/
def ReconnectingWebSocket.handleClose (s : ReconnectingWebSocket) : ReconnectingWebSocket :=
  { s with pingActive := false, pendingReconnect := true,
           ws := s.ws.map (fun w => { w with isOpen := false }) }

/-- The reconnect `setTimeout` callback (lines 35–41): doubles
`reconnectDelay` capped at `maxReconnectDelay = 30000` and calls
`connect()` again, constructing a replacement socket. -/
def ReconnectingWebSocket.handleTimer (s : ReconnectingWebSocket) : ReconnectingWebSocket :=
  if s.pendingReconnect then
    ReconnectingWebSocket.connect
      { s with pendingReconnect := false,
               reconnectDelay := min (s.reconnectDelay * 2) 30000 }
  else s

/-- `close()` (lines 51–54): asks the current socket to close and clears
the ping interval.  It does *not* touch `pendingReconnect`, and the
socket's own close event (`handleClose`) still fires afterwards. -/
def ReconnectingWebSocket.close (s : ReconnectingWebSocket) : ReconnectingWebSocket :=
  { s with pingActive := false,
           ws := s.ws.map (fun w => { w with isOpen := false }) }

/-- `this.ws && this.ws.readyState === WebSocket.OPEN` (line 46). -/
def ReconnectingWebSocket.socketIsOpen (s : ReconnectingWebSocket) : Bool :=
  match s.ws with
  | some w => w.isOpen
  | none => false

/-- `send(msg)` (lines 45–49): transmits `JSON.stringify(msg)` iff the
current socket exists and is OPEN; otherwise the message is dropped with
no error and no queueing.  The returned state is the (unchanged) instance
and the optional transmitted message. -/
def ReconnectingWebSocket.send (s : ReconnectingWebSocket) (m : OutMsg) :
    ReconnectingWebSocket × Option OutMsg :=
  match s.ws with
  | some w => if w.isOpen then (s, some m) else (s, none)
  | none => (s, none)

/-- `ProjectBroadcast.send(data)` (websockets.ts lines 120–122):
`this.reconnecting?.send({type:"message", data})`. -/
def ProjectBroadcast.send (s : ReconnectingWebSocket) (data : String) :
    ReconnectingWebSocket × Option OutMsg :=
  s.send (.message data)

/-- `RoomChat.sendMessage(content)` (websockets.ts lines 166–168):
`this.reconnecting?.send({type:"message", content})`. -/
def RoomChat.sendMessage (s : ReconnectingWebSocket) (content : String) :
    ReconnectingWebSocket × Option OutMsg :=
  s.send (.messageContent content)

/-- External events driving one `ReconnectingWebSocket`: method calls
(`connect`, `onMessage`, `close`) and asynchronous callbacks (socket open
event, socket close event, the reconnect timer firing). -/
inductive REvent where
  | connectCall
  | onMessageCall
  | openEvt
  | closeEvt
  | timerFire
  | closeCall
deriving DecidableEq, Repr

/-- Step of the `ReconnectingWebSocket` event machine. -/
def ReconnectingWebSocket.step (s : ReconnectingWebSocket) : REvent → ReconnectingWebSocket
  | .connectCall => s.connect
  | .onMessageCall => s.onMessage
  | .openEvt => s.handleOpen
  | .closeEvt => s.handleClose
  | .timerFire => s.handleTimer
  | .closeCall => s.close

/-- Run a list of events. -/
def ReconnectingWebSocket.run (s : ReconnectingWebSocket) (evs : List REvent) :
    ReconnectingWebSocket :=
  evs.foldl ReconnectingWebSocket.step s

/-- `CollectionWatcher.connect()` / `ProjectBroadcast.connect()` /
`RoomChat._connect()` all build a fresh transport, call `connect()` and
then `onMessage(...)` (websockets.ts lines 75–83, 109–118, 156–164). -/
def channelConnect : ReconnectingWebSocket :=
  ReconnectingWebSocket.init.connect.onMessage

/-- An inbound frame on the transport reaches the owning channel's parser
iff the *current* socket has an `onmessage` handler assigned. -/
def ReconnectingWebSocket.framesDispatched (s : ReconnectingWebSocket) : Bool :=
  match s.ws with
  | some w => w.hasOnMessage
  | none => false

/-- GameClient's `onopen` assignment `this.currentReconnectDelay =
this.reconnectDelay` (multiplayer.ts line 171): the delay returns to its
floor 1000 as soon as a socket opens. -/
def gcOnOpen (_d : Nat) : Nat := 1000

/-- The `catch` of `scheduleReconnect` (multiplayer.ts lines 456–460):
`currentReconnectDelay = min(currentReconnectDelay * 2,
maxReconnectDelay)` with `maxReconnectDelay = 30000`. -/
def gcOnFail (d : Nat) : Nat := min (d * 2) 30000

/-- Shape of one GameClient reconnect attempt, as it affects
`currentReconnectDelay`:
* `failNoOpen` — `connect()` rejected and the socket never fired `onopen`
  (e.g. construction failure, error or watchdog before open);
* `failAfterOpen` — the socket fired `onopen` (resetting the delay) and
  `connect()` rejected afterwards (error frame or watchdog before a
  confirmation frame);
* `success` — the attempt reached `Connected`; `onopen` fired and no
  doubling followed. -/
inductive GCAttempt where
  | failNoOpen
  | failAfterOpen
  | success
deriving DecidableEq, Repr

/-- Effect of one attempt on `currentReconnectDelay`. -/
def gcAttempt (d : Nat) : GCAttempt → Nat
  | .failNoOpen => gcOnFail d
  | .failAfterOpen => gcOnFail (gcOnOpen d)
  | .success => gcOnOpen d

/-- `currentReconnectDelay` after a sequence of attempts starting from
delay `d`. -/
def gcRun (d : Nat) (ds : List GCAttempt) : Nat := ds.foldl gcAttempt d

/-- One registered GameClient callback for purposes of the
mutation-during-dispatch model: `normal i` just runs; `selfRemoving i` is
the wrapper installed by `once(event, cb)` (multiplayer.ts lines
349–355), which first calls `off(event, wrapper)` — removing its own
first occurrence from the array — and then runs. -/
inductive Cb where
  | normal (id : Nat)
  | selfRemoving (id : Nat)
deriving DecidableEq, Repr

/-- The identity of a callback. -/
def Cb.id : Cb → Nat
  | .normal i => i
  | .selfRemoving i => i

/-- Whether a callback is a plain (non-removing) one. -/
def Cb.isNormal : Cb → Bool
  | .normal _ => true
  | .selfRemoving _ => false

/-- `indexOf` + `splice(index, 1)` as performed by `GameClient.off`
(multiplayer.ts lines 363–371) and by the unsubscribe closure returned by
`on` (lines 325–333): removes the first occurrence of `c`, and is a no-op
when `c` is absent (`indexOf` returns `-1`). -/
def removeFirst {α : Type} [DecidableEq α] : List α → α → List α
  | [], _ => []
  | x :: xs, c => if x = c then xs else x :: removeFirst xs c

/-- ECMAScript `Array.prototype.forEach` as used by `GameClient.emit`
(multiplayer.ts lines 425–431) when a callback may splice the array
during iteration: the length is captured before the loop, each index `k`
from `0` to that length minus one is visited, an index beyond the current
(possibly shrunk) length is skipped, and a `selfRemoving` callback
removes its own first occurrence before the loop continues.  Returns the
final array and the invocation log (callback ids in invocation order).
The per-callback `try`/`catch` of `emit` is irrelevant here since none of
these callbacks throw. -/
def emitLoop : Nat → Nat → List Cb → List Nat → List Cb × List Nat
  | 0, _, l, log => (l, log)
  | fuel + 1, k, l, log =>
      match l[k]? with
      | none => emitLoop fuel (k + 1) l log
      | some (Cb.normal i) => emitLoop fuel (k + 1) l (log ++ [i])
      | some (Cb.selfRemoving i) =>
          emitLoop fuel (k + 1) (removeFirst l (Cb.selfRemoving i)) (log ++ [i])

/-- Dispatch of one emitted event to the callback array registered for
it: `callbacks.forEach(...)` with the pre-loop length capture. -/
def emitDispatch (l : List Cb) : List Cb × List Nat :=
  emitLoop l.length 0 l []

/-- A listener for the error-isolation model: `throws = true` means the
callback body raises an exception when invoked. -/
structure LCb where
  id : Nat
  throws : Bool
deriving DecidableEq, Repr

/-- `GameClient.emit`'s loop over one callback list (multiplayer.ts lines
425–431): each invocation is wrapped in `try { cb(data) } catch (err) {
console.error(...) }`, so every callback is invoked regardless of earlier
throwers.  Returns the ids invoked, in order. -/
def gcEmitCbs : List LCb → List Nat
  | [] => []
  | c :: rest => c.id :: gcEmitCbs rest

/-- The dispatch loop of the `ReconnectingWebSocket`-based channels
(CollectionWatcher at websockets.ts line 81, ProjectBroadcast at line
115, RoomChat at line 162): `(this.listeners[ev] || []).forEach(cb =>
cb(data))` with no `try`/`catch`, so the first throwing callback
propagates its exception out of `forEach` and stops the loop.  Returns
the ids invoked (the thrower is invoked, then the loop aborts) and
whether the loop completed without an exception. -/
def cwForEach : List LCb → List Nat × Bool
  | [] => ([], true)
  | c :: rest =>
      if c.throws then ([c.id], false)
      else
        let p := cwForEach rest
        (c.id :: p.1, p.2)

/-- `N` consecutive failed connection cycles of a `ReconnectingWebSocket`:
each cycle is the socket's close event followed by the reconnect timer
firing (doubling the delay and opening the next attempt). -/
def ReconnectingWebSocket.failCycles (s : ReconnectingWebSocket) : Nat → ReconnectingWebSocket
  | 0 => s
  | n + 1 => ((s.failCycles n).step .closeEvt).step .timerFire

/-! ### Helper lemmas -/

theorem min_double_cap (a c : Nat) : min (min a c * 2) c = min (a * 2) c := by
  rcases Nat.le_total a c with h | h
  · rw [Nat.min_eq_left h]
  · rw [Nat.min_eq_right h, Nat.min_eq_right (by omega), Nat.min_eq_right (by omega)]

theorem cycle_delay (s : ReconnectingWebSocket) :
    ((s.step .closeEvt).step .timerFire).reconnectDelay
      = min (s.reconnectDelay * 2) 30000 := rfl

theorem failCycles_delay (s : ReconnectingWebSocket) (h : s.reconnectDelay = 1000) (n : Nat) :
    (s.failCycles n).reconnectDelay = min (1000 * 2 ^ n) 30000 := by
  induction n with
  | zero => simp [ReconnectingWebSocket.failCycles, h]
  | succ n ih =>
      rw [ReconnectingWebSocket.failCycles, cycle_delay, ih, min_double_cap,
        pow_succ, ← mul_assoc]

theorem rws_step_delay_bounds (s : ReconnectingWebSocket) (e : REvent)
    (h1 : 1000 ≤ s.reconnectDelay) (h2 : s.reconnectDelay ≤ 30000) :
    1000 ≤ (s.step e).reconnectDelay ∧ (s.step e).reconnectDelay ≤ 30000 := by
  cases e with
  | connectCall => exact ⟨h1, h2⟩
  | onMessageCall =>
      cases hw : s.ws <;>
        simp [ReconnectingWebSocket.step, ReconnectingWebSocket.onMessage, hw, h1, h2]
  | openEvt =>
      simp [ReconnectingWebSocket.step, ReconnectingWebSocket.handleOpen]
  | closeEvt =>
      simp [ReconnectingWebSocket.step, ReconnectingWebSocket.handleClose, h1, h2]
  | timerFire =>
      by_cases hp : s.pendingReconnect <;>
        simp [ReconnectingWebSocket.step, ReconnectingWebSocket.handleTimer,
          ReconnectingWebSocket.connect, hp, h1, h2] <;> omega
  | closeCall =>
      simp [ReconnectingWebSocket.step, ReconnectingWebSocket.close, h1, h2]

theorem rws_run_delay_bounds (s : ReconnectingWebSocket) (evs : List REvent)
    (h1 : 1000 ≤ s.reconnectDelay) (h2 : s.reconnectDelay ≤ 30000) :
    1000 ≤ (s.run evs).reconnectDelay ∧ (s.run evs).reconnectDelay ≤ 30000 := by
  induction evs generalizing s with
  | nil => exact ⟨h1, h2⟩
  | cons e evs ih =>
      have hb := rws_step_delay_bounds s e h1 h2
      exact ih (s.step e) hb.1 hb.2

theorem gcRun_bounds_aux (ds : List GCAttempt) (d : Nat)
    (h1 : 1000 ≤ d) (h2 : d ≤ 30000) :
    1000 ≤ gcRun d ds ∧ gcRun d ds ≤ 30000 := by
  induction ds generalizing d with
  | nil => exact ⟨h1, h2⟩
  | cons a ds ih =>
      have hb : 1000 ≤ gcAttempt d a ∧ gcAttempt d a ≤ 30000 := by
        cases a <;> simp [gcAttempt, gcOnFail, gcOnOpen] <;> omega
      exact ih (gcAttempt d a) hb.1 hb.2

theorem gcRun_all_fail (n : Nat) :
    gcRun 1000 (List.replicate n .failNoOpen) = min (1000 * 2 ^ n) 30000 := by
  induction n with
  | zero => decide
  | succ n ih =>
      rw [List.replicate_succ', gcRun, List.foldl_append]
      show gcAttempt (gcRun 1000 (List.replicate n .failNoOpen)) .failNoOpen = _
      rw [ih]
      show min (min (1000 * 2 ^ n) 30000 * 2) 30000 = _
      rw [min_double_cap, pow_succ, ← mul_assoc]

/-! ### C2 — teardown leaves no timers and no further reconnect -/

/-- C2: the claim says that after `ReconnectingWebSocket.close()` zero
timers remain active and no further socket construction ever occurs.  The
code contradicts this: `close()` (websockets.ts lines 51–54) never
cancels the reconnect machinery, and the `onclose` handler (lines 33–42)
that fires in response to the requested close unconditionally schedules a
reconnect `setTimeout`, which then constructs a second socket.  This
theorem evaluates the model on that failing execution: after
`connect(); onMessage(); open; close(); close event` a reconnect timer is
pending, and when it fires a second socket is constructed. -/
theorem reconnectingWebSocket_close_still_reconnects :
    (ReconnectingWebSocket.run channelConnect [.openEvt, .closeCall, .closeEvt]).pendingReconnect
        = true
    ∧ (ReconnectingWebSocket.run channelConnect
        [.openEvt, .closeCall, .closeEvt, .timerFire]).socketsCreated = 2 := by
  decide

/-! ### C4 — listener wiring across reconnection -/

/-- C4: the claim says frames arriving on the replacement socket after an
automatic reconnect are still parsed and dispatched to the previously
registered listeners.  The code contradicts this: `connect()`
(websockets.ts lines 18–43) installs only `onopen` and `onclose` on the
new socket, and nothing ever re-assigns `onmessage` (assigned once, on
the first socket only, by `onMessage`, lines 56–59).  This theorem
evaluates the model: before the reconnect the channel's parser receives
frames, after the automatic reconnect the replacement socket has no
`onmessage` handler, so no frame reaches the parser or any listener. -/
theorem reconnectingWebSocket_onmessage_lost_after_reconnect :
    (ReconnectingWebSocket.run channelConnect [.openEvt]).framesDispatched = true
    ∧ (ReconnectingWebSocket.run channelConnect
        [.openEvt, .closeEvt, .timerFire, .openEvt]).framesDispatched = false := by
  decide

/-! ### C7 — send is a silent drop when the socket is not open -/

/-- C7: `ReconnectingWebSocket.send(msg)` (websockets.ts lines 45–49) is
a silent no-op when the underlying socket is absent or not OPEN — the
message is dropped, nothing is queued, no error is raised and no state
changes — and when the socket is OPEN the (JSON serialization of the)
message is transmitted.  The same holds for the wrappers
`ProjectBroadcast.send` and `RoomChat.sendMessage`, which delegate to it. -/
theorem reconnectingWebSocket_send_drop_or_transmit
    (s : ReconnectingWebSocket) (m : OutMsg) (d c : String) :
    (s.socketIsOpen = false →
      s.send m = (s, none)
      ∧ ProjectBroadcast.send s d = (s, none)
      ∧ RoomChat.sendMessage s c = (s, none))
    ∧ (s.socketIsOpen = true →
      s.send m = (s, some m)
      ∧ ProjectBroadcast.send s d = (s, some (.message d))
      ∧ RoomChat.sendMessage s c = (s, some (.messageContent c))) := by
  unfold ProjectBroadcast.send RoomChat.sendMessage
  cases hw : s.ws with
  | none => simp [ReconnectingWebSocket.socketIsOpen, ReconnectingWebSocket.send, hw]
  | some w =>
      cases ho : w.isOpen <;>
        simp [ReconnectingWebSocket.socketIsOpen, ReconnectingWebSocket.send, hw, ho]

/-- Witness for C7 at concrete states: a socket that exists but is not
yet open drops a ping; an open socket transmits it. -/
theorem reconnectingWebSocket_send_drop_or_transmit_witness :
    ReconnectingWebSocket.init.connect.socketIsOpen = false
    ∧ ReconnectingWebSocket.init.connect.send .ping = (ReconnectingWebSocket.init.connect, none)
    ∧ ReconnectingWebSocket.init.connect.handleOpen.socketIsOpen = true
    ∧ ReconnectingWebSocket.init.connect.handleOpen.send .ping
        = (ReconnectingWebSocket.init.connect.handleOpen, some .ping) :=
  ⟨by decide,
   ((reconnectingWebSocket_send_drop_or_transmit
      ReconnectingWebSocket.init.connect .ping "" "").1 (by decide)).1,
   by decide,
   ((reconnectingWebSocket_send_drop_or_transmit
      ReconnectingWebSocket.init.connect.handleOpen .ping "" "").2 (by decide)).1⟩

/-! ### C3 — backoff invariant -/

/-- C3 counterexample: the claim states that after `N` consecutive failed
connection attempts `currentDelay = min(floor * 2^N, ceiling)`, for
GameClient as well.  But GameClient's `onopen` (multiplayer.ts line 171)
resets `currentReconnectDelay` to the floor as soon as a socket opens —
*before* the attempt is known to succeed.  Two consecutive failed
attempts whose sockets open and then fail (error frame or watchdog before
confirmation) leave the delay at `2000`, not
`min(1000 * 2^2, 30000) = 4000`. -/
theorem gameClient_backoff_formula_counterexample :
    GCAttempt.failAfterOpen ≠ GCAttempt.success
    ∧ gcRun 1000 [GCAttempt.failAfterOpen, GCAttempt.failAfterOpen] = 2000
    ∧ min (1000 * 2 ^ 2) 30000 = 4000
    ∧ (2000 : Nat) ≠ 4000 := by
  refine ⟨by decide, by decide, by norm_num, by decide⟩

/-- C3 amended: `floor ≤ currentDelay ≤ ceiling` (floor 1000, ceiling
30000) holds at all times for both backoff machines.  For
`ReconnectingWebSocket`, after `N` consecutive failed/closed cycles from
a fresh delay the delay equals `min(floor * 2^N, ceiling)`, and a
successful open resets it to the floor.  For GameClient the delay resets
to the floor on *socket open* (not on reaching Connected), so the
`min(floor * 2^N, ceiling)` law holds for `N` consecutive failed attempts
in which the socket never opened; an attempt whose socket opens and then
fails restarts the progression at `2 * floor = 2000`; an attempt that
reaches Connected leaves the delay at the floor. -/
theorem backoff_invariant_amended :
    (∀ evs : List REvent,
      1000 ≤ (ReconnectingWebSocket.init.run evs).reconnectDelay
      ∧ (ReconnectingWebSocket.init.run evs).reconnectDelay ≤ 30000)
    ∧ (∀ (s : ReconnectingWebSocket) (n : Nat), s.reconnectDelay = 1000 →
        (s.failCycles n).reconnectDelay = min (1000 * 2 ^ n) 30000)
    ∧ (∀ s : ReconnectingWebSocket, s.handleOpen.reconnectDelay = 1000)
    ∧ (∀ n : Nat, gcRun 1000 (List.replicate n .failNoOpen) = min (1000 * 2 ^ n) 30000)
    ∧ (∀ (d : Nat) (ds : List GCAttempt), 1000 ≤ d → d ≤ 30000 →
        1000 ≤ gcRun d ds ∧ gcRun d ds ≤ 30000)
    ∧ (∀ d : Nat, gcAttempt d .success = 1000 ∧ gcAttempt d .failAfterOpen = 2000) :=
  ⟨fun evs => rws_run_delay_bounds ReconnectingWebSocket.init evs (by decide) (by decide),
   fun s n h => failCycles_delay s h n,
   fun _ => rfl,
   gcRun_all_fail,
   fun d ds h1 h2 => gcRun_bounds_aux ds d h1 h2,
   fun _ => ⟨rfl, by norm_num [gcAttempt, gcOnFail, gcOnOpen]⟩⟩

/-! ### C1 — connection confirmation resolves the connect promise -/

/-- C1 counterexample: the claim says *any* frame carrying a `your_id`
field resolves the connect promise and captures the identity, and that
`playerId` equals the frame's `your_id` whenever present.  The code
contradicts both: (1) the pong guard (multiplayer.ts line 195) runs
first, so `{type:"pong", your_id:"p1"}` is absorbed silently — nothing is
emitted, the promise stays pending, no identity is captured; (2) a
confirmation frame with `your_id` present but empty (`{type:"connected",
your_id:""}`) resolves, yet `if (data.your_id)` is falsy so `playerId`
stays unset rather than equalling `""`. -/
theorem gameClient_confirmation_claim_counterexample :
    truthy ({ type := some "pong", your_id := some "p1" } : Frame).your_id = true
    ∧ GameClient.init.handleMessage { type := some "pong", your_id := some "p1" }
        = (GameClient.init, [])
    ∧ GameClient.init.settled = none
    ∧ GameClient.init.isConnected = false
    ∧ (GameClient.init.handleMessage { type := some "connected", your_id := some "" }).1.settled
        = some .resolved
    ∧ (GameClient.init.handleMessage { type := some "connected", your_id := some "" }).1.playerId
        = none := by
  refine ⟨by decide, by decide, rfl, rfl, by decide, by decide⟩

/-- C1 amended: on an inbound frame that is *not* `{type:"pong"}` and
whose extracted event type (`type`, else `event`, else `"message"`) is
`"connected"` or `"welcome"`, or that carries a truthy (non-empty)
`your_id`: `_isConnected` becomes true, `playerId` is set to the frame's
`your_id` when that field is truthy, a `connected` event is emitted to
listeners, and the pending connect promise resolves.  Conversely these
are the only frames whose handling resolves a pending promise. -/
theorem gameClient_confirmation_amended (s : GameClient) (f : Frame)
    (hpend : s.settled = none) :
    (f.type ≠ some "pong" → f.isConfirmation →
      (s.handleMessage f).1.isConnected = true
      ∧ (s.handleMessage f).1.settled = some .resolved
      ∧ (truthy f.your_id = true → (s.handleMessage f).1.playerId = f.your_id)
      ∧ (s.handleMessage f).2 = [("connected", some f)])
    ∧ ((s.handleMessage f).1.settled = some .resolved →
        f.type ≠ some "pong" ∧ f.isConfirmation) := by
  constructor
  · intro hp hc
    simp only [GameClient.handleMessage, if_neg hp, if_pos hc]
    refine ⟨?_, ?_, ?_, by trivial⟩
    · simp [GameClient.settle, GameClient.isConnected, hpend]
    · simp [GameClient.settle, hpend]
    · intro ht
      simp [GameClient.settle, hpend, ht]
  · intro hres
    by_cases hp : f.type = some "pong"
    · rw [GameClient.handleMessage, if_pos hp] at hres
      rw [hpend] at hres
      exact absurd hres (by simp)
    · by_cases hc : f.isConfirmation
      · exact ⟨hp, hc⟩
      · exfalso
        by_cases he : f.isErrorFrame
        · rw [GameClient.handleMessage, if_neg hp, if_neg hc, if_pos he] at hres
          cases hic : s.isConnected with
          | true => rw [hic] at hres; simp [hpend] at hres
          | false => rw [hic] at hres; simp [GameClient.settle, hpend] at hres
        · rw [GameClient.handleMessage, if_neg hp, if_neg hc, if_neg he] at hres
          rw [hpend] at hres
          exact absurd hres (by simp)

/-- Witness for C1 amended: the spec's own scenario — socket open, frame
`{type:"welcome", your_id:"p1"}` arrives — resolves the promise with
`playerId = "p1"`, `isConnected = true`, and the `connected` emit. -/
theorem gameClient_confirmation_amended_witness :
    (GameClient.init.handleMessage { type := some "welcome", your_id := some "p1" }).1.isConnected
        = true
    ∧ (GameClient.init.handleMessage { type := some "welcome", your_id := some "p1" }).1.settled
        = some .resolved
    ∧ (GameClient.init.handleMessage { type := some "welcome", your_id := some "p1" }).1.playerId
        = some "p1"
    ∧ (GameClient.init.handleMessage { type := some "welcome", your_id := some "p1" }).2
        = [("connected", some { type := some "welcome", your_id := some "p1" })] :=
  have h := (gameClient_confirmation_amended GameClient.init
    { type := some "welcome", your_id := some "p1" } rfl).1 (by decide) (by decide)
  ⟨h.1, h.2.1, h.2.2.1 (by decide), h.2.2.2⟩

/-! ### C5 — connect watchdog and single settlement -/

/-- Settlement, once recorded, survives every further event: the promise
returned by `connect` resolves or rejects at most once across its
resolution paths (confirmation, error, close, watchdog). -/
theorem settle_preserved_step (s : GameClient) (e : GEv) (r : Settle)
    (h : s.settled = some r) : (s.step e).1.settled = some r := by
  cases e with
  | sockOpen => simpa using h
  | sockMsg f =>
      simp only [GameClient.step, GameClient.handleMessage]
      split
      · exact h
      · split
        · simp [GameClient.settle, h]
        · split
          · split
            · exact h
            · simp [GameClient.settle, h]
          · exact h
  | sockErr =>
      simp only [GameClient.step]
      split
      · exact h
      · simp [GameClient.settle, h]
  | sockClose wasClean => simpa using h
  | watchdogFire =>
      simp only [GameClient.step]
      split
      · exact h
      · simp [GameClient.settle, h]

theorem settle_preserved_run (s : GameClient) (evs : List GEv) (r : Settle)
    (h : s.settled = some r) : (s.run evs).1.settled = some r := by
  induction evs generalizing s with
  | nil => exact h
  | cons e evs ih => exact ih (s.step e).1 (settle_preserved_step s e r h)

/-- C5: the 10-second watchdog armed at connect-call time (multiplayer.ts
lines 257–263): if neither `AwaitingConfirmation` nor `Connected` has
been reached when it fires (and the promise is still pending), the socket
is force-closed and the promise rejects with the `"Connection timeout"`
error; and across all resolution paths the promise settles at most once —
once settled, no later event changes the recorded outcome. -/
theorem gameClient_watchdog_and_single_settle :
    (∀ s : GameClient, s.phase ≠ .awaiting → s.phase ≠ .connected → s.settled = none →
      (s.step .watchdogFire).1.closeRequested = true
      ∧ (s.step .watchdogFire).1.settled = some (.rejected "Connection timeout"))
    ∧ (∀ (s : GameClient) (evs : List GEv) (r : Settle),
        s.settled = some r → (s.run evs).1.settled = some r) := by
  constructor
  · intro s ha hcn hpend
    have hic : s.isConnected = false := by
      cases hph : s.phase <;> simp [GameClient.isConnected, hph] at hcn ⊢
    simp [GameClient.step, hic, GameClient.settle, hpend]
  · exact settle_preserved_run

/-- Witness for C5: the watchdog firing while still `Connecting` closes
the socket and rejects with the timeout error; a resolved promise stays
resolved through a later watchdog fire and socket error. -/
theorem gameClient_watchdog_and_single_settle_witness :
    (GameClient.init.step .watchdogFire).1.closeRequested = true
    ∧ (GameClient.init.step .watchdogFire).1.settled = some (.rejected "Connection timeout")
    ∧ ((GameClient.init.settle .resolved).run [.watchdogFire, .sockErr]).1.settled
        = some .resolved :=
  ⟨(gameClient_watchdog_and_single_settle.1 GameClient.init (by decide) (by decide) rfl).1,
   (gameClient_watchdog_and_single_settle.1 GameClient.init (by decide) (by decide) rfl).2,
   gameClient_watchdog_and_single_settle.2 (GameClient.init.settle .resolved)
     [.watchdogFire, .sockErr] .resolved (by decide)⟩

/-! ### C8 — pong frames are absorbed silently -/

theorem handleMessage_no_pong_payload (s : GameClient) (f : Frame) :
    ∀ ep ∈ (s.handleMessage f).2, ∀ g : Frame, ep.2 = some g → g.type ≠ some "pong" := by
  simp only [GameClient.handleMessage]
  split
  · simp
  next hpong =>
    split
    · intro ep hep g hg
      rw [List.mem_singleton] at hep
      subst hep
      simp only [Option.some.injEq] at hg
      subst hg
      exact hpong
    · split
      · intro ep hep g hg
        rw [List.mem_singleton] at hep
        subst hep
        simp only [Option.some.injEq] at hg
        subst hg
        exact hpong
      · intro ep hep g hg
        rw [List.mem_singleton] at hep
        subst hep
        simp only [Option.some.injEq] at hg
        subst hg
        exact hpong

theorem step_no_pong_payload (s : GameClient) (e : GEv) :
    ∀ ep ∈ (s.step e).2, ∀ g : Frame, ep.2 = some g → g.type ≠ some "pong" := by
  cases e with
  | sockOpen => simp [GameClient.step]
  | sockMsg f => exact handleMessage_no_pong_payload s f
  | sockErr => simp [GameClient.step]
  | sockClose wasClean => simp [GameClient.step]
  | watchdogFire =>
      simp only [GameClient.step]
      split
      · simp
      · simp

theorem run_no_pong_payload (s : GameClient) (evs : List GEv) :
    ∀ ep ∈ (s.run evs).2, ∀ g : Frame, ep.2 = some g → g.type ≠ some "pong" := by
  induction evs generalizing s with
  | nil => simp [GameClient.run]
  | cons e evs ih =>
      intro ep hep g hg
      simp only [GameClient.run] at hep
      rw [List.mem_append] at hep
      cases hep with
      | inl h => exact step_no_pong_payload s e ep h g hg
      | inr h => exact ih (s.step e).1 ep h g hg

theorem dispatchEmit_payload (reg : List (String × Nat)) (e : String) (p : Option Frame)
    (i : LInv) (h : i ∈ dispatchEmit reg e p) : i.payload = p := by
  unfold dispatchEmit at h
  rw [List.mem_append] at h
  cases h with
  | inl h =>
      obtain ⟨q, _, rfl⟩ := List.mem_map.mp h
      rfl
  | inr h =>
      obtain ⟨q, _, rfl⟩ := List.mem_map.mp h
      rfl

theorem dispatchAll_mem (reg : List (String × Nat)) (outs : List (String × Option Frame))
    (i : LInv) (h : i ∈ dispatchAll reg outs) : ∃ ep ∈ outs, i.payload = ep.2 := by
  induction outs with
  | nil => simp [dispatchAll] at h
  | cons o outs ih =>
      simp only [dispatchAll, List.foldr_cons] at h
      rw [List.mem_append] at h
      cases h with
      | inl h => exact ⟨o, List.mem_cons_self o outs, dispatchEmit_payload reg o.1 o.2 i h⟩
      | inr h =>
          obtain ⟨ep, hmem, hpay⟩ := ih h
          exact ⟨ep, List.mem_cons_of_mem o hmem, hpay⟩

/-- C8: every inbound frame parsing to `{type:"pong"}` is absorbed
silently by the guard at multiplayer.ts line 195: for any sequence of
events and any registry of listeners (wildcard included), no emitted
event carries a pong frame, no listener invocation ever receives a pong
frame, and handling a pong frame changes nothing and emits nothing. -/
theorem gameClient_pong_absorbed (reg : List (String × Nat)) (s : GameClient)
    (evs : List GEv) :
    (∀ ep ∈ (s.run evs).2, ∀ g : Frame, ep.2 = some g → g.type ≠ some "pong")
    ∧ (∀ i ∈ dispatchAll reg (s.run evs).2, ∀ g : Frame,
        i.payload = some g → g.type ≠ some "pong")
    ∧ (∀ f : Frame, f.type = some "pong" → s.handleMessage f = (s, [])) := by
  refine ⟨run_no_pong_payload s evs, ?_, ?_⟩
  · intro i hi g hg
    obtain ⟨ep, hmem, hpay⟩ := dispatchAll_mem reg _ i hi
    exact run_no_pong_payload s evs ep hmem g (by rw [← hpay, hg])
  · intro f hf
    rw [GameClient.handleMessage, if_pos hf]

/-- Witness for C8: a `state` frame does reach its listener (so the run
is not vacuous) and its payload is not a pong; a pong frame is handled as
a strict no-op. -/
theorem gameClient_pong_absorbed_witness :
    LInv.plain 5 (some { type := some "state" })
        ∈ dispatchAll [("state", 5)]
            ((GameClient.init.run [.sockMsg { type := some "state" }]).2)
    ∧ ({ type := some "state" } : Frame).type ≠ some "pong"
    ∧ GameClient.init.handleMessage { type := some "pong" } = (GameClient.init, []) :=
  ⟨by decide,
   (gameClient_pong_absorbed [("state", 5)] GameClient.init
      [.sockMsg { type := some "state" }]).2.1
     (LInv.plain 5 (some { type := some "state" })) (by decide)
     { type := some "state" } rfl,
   (gameClient_pong_absorbed [] GameClient.init []).2.2 { type := some "pong" } rfl⟩

/-! ### C6 — per-callback error isolation -/

/-- C6 counterexample: the claim says that in *every* channel type a
throwing listener is caught per invocation and the remaining listeners
still receive the frame.  The `ReconnectingWebSocket`-based channels have
no such catch: the dispatch loop of `CollectionWatcher.connect`
(websockets.ts line 81) is a bare `forEach`, so with listeners
`[thrower 0, listener 1]` the exception aborts dispatch and listener `1`
never receives the frame. -/
theorem collectionWatcher_listener_throw_counterexample :
    cwForEach [⟨0, true⟩, ⟨1, false⟩] = ([0], false)
    ∧ (1 : Nat) ∉ (cwForEach [⟨0, true⟩, ⟨1, false⟩]).1 := by
  refine ⟨by decide, by decide⟩

/-- C6 amended: only `GameClient.emit` isolates listener errors — it
wraps each callback invocation in `try`/`catch`, so every registered
callback is invoked regardless of earlier throwers.  In the
`ReconnectingWebSocket`-based channels (CollectionWatcher,
ProjectBroadcast, RoomChat) the first throwing callback propagates its
exception out of the bare `forEach`: the callbacks before it and the
thrower itself are invoked, the loop does not complete, and every
callback after the thrower is skipped. -/
theorem listener_error_isolation_amended :
    (∀ cbs : List LCb, gcEmitCbs cbs = cbs.map LCb.id)
    ∧ (∀ (pre post : List LCb) (c : LCb),
        (∀ x ∈ pre, x.throws = false) → c.throws = true →
        cwForEach (pre ++ c :: post) = (pre.map LCb.id ++ [c.id], false)) := by
  constructor
  · intro cbs
    induction cbs with
    | nil => rfl
    | cons c rest ih => simp [gcEmitCbs, ih]
  · intro pre post c hpre hc
    induction pre with
    | nil => simp [cwForEach, hc]
    | cons x pre ih =>
        have hx : x.throws = false := hpre x (List.mem_cons_self x pre)
        have hrest : ∀ y ∈ pre, y.throws = false :=
          fun y hy => hpre y (List.mem_cons_of_mem x hy)
        simp only [List.cons_append, cwForEach, hx, Bool.false_eq_true, if_false,
          List.map_cons]
        simp [ih hrest]

/-- Witness for C6 amended: a GameClient dispatch with a throwing first
listener still invokes both; a CollectionWatcher dispatch with listeners
`[9 (fine), 0 (throws), 1 (fine)]` invokes `9` then the thrower `0` and
skips `1`. -/
theorem listener_error_isolation_amended_witness :
    gcEmitCbs [⟨0, true⟩, ⟨1, false⟩] = [0, 1]
    ∧ cwForEach [⟨9, false⟩, ⟨0, true⟩, ⟨1, false⟩] = ([9, 0], false) :=
  ⟨listener_error_isolation_amended.1 [⟨0, true⟩, ⟨1, false⟩],
   listener_error_isolation_amended.2 [⟨9, false⟩] [⟨1, false⟩] ⟨0, true⟩
     (by decide) rfl⟩

/-! ### forEach-with-mutation lemmas (C9, C10) -/

theorem emitLoop_nil (fuel : Nat) : ∀ (k : Nat) (log : List Nat),
    emitLoop fuel k [] log = ([], log) := by
  induction fuel with
  | zero => intro k log; rfl
  | succ n ih => intro k log; simp [emitLoop, ih]

theorem removeFirst_cons_of_ne {α : Type} [DecidableEq α] (x c : α) (l : List α)
    (h : ¬ x = c) : removeFirst (x :: l) c = x :: removeFirst l c := by
  simp [removeFirst, h]

theorem emitLoop_cons_normal (fuel : Nat) (i : Nat) : ∀ (k : Nat) (l : List Cb) (log : List Nat),
    emitLoop fuel (k + 1) (Cb.normal i :: l) log
      = (Cb.normal i :: (emitLoop fuel k l log).1, (emitLoop fuel k l log).2) := by
  induction fuel with
  | zero => intro k l log; rfl
  | succ n ih =>
      intro k l log
      simp only [emitLoop, List.getElem?_cons_succ]
      cases h : l[k]? with
      | none =>
          simp only [h]
          exact ih (k + 1) l log
      | some c =>
          cases c with
          | normal j =>
              simp only [h]
              exact ih (k + 1) l (log ++ [j])
          | selfRemoving j =>
              simp only [h]
              rw [removeFirst_cons_of_ne _ _ _ (by simp)]
              exact ih (k + 1) (removeFirst l (Cb.selfRemoving j)) (log ++ [j])

theorem emitLoop_all_normal : ∀ (l : List Cb), (∀ x ∈ l, x.isNormal = true) →
    ∀ (fuel : Nat) (log : List Nat), l.length ≤ fuel →
    emitLoop fuel 0 l log = (l, log ++ l.map Cb.id) := by
  intro l
  induction l with
  | nil => intro _ fuel log _; simp [emitLoop_nil]
  | cons x rest ih =>
      intro hl fuel log hf
      have hx : x.isNormal = true := hl x (List.mem_cons_self x rest)
      obtain ⟨i, rfl⟩ : ∃ i, x = Cb.normal i := by
        cases x with
        | normal i => exact ⟨i, rfl⟩
        | selfRemoving i => simp [Cb.isNormal] at hx
      obtain ⟨f, rfl⟩ : ∃ f, fuel = f + 1 := by
        cases fuel with
        | zero => simp at hf
        | succ f => exact ⟨f, rfl⟩
      have hf' : rest.length ≤ f := by
        simp only [List.length_cons] at hf
        omega
      simp only [emitLoop, List.getElem?_cons_zero]
      rw [emitLoop_cons_normal f i 0 rest (log ++ [i])]
      simp [Cb.id, ih (fun y hy => hl y (List.mem_cons_of_mem _ hy)) f (log ++ [i]) hf']

theorem emitLoop_prefix : ∀ (pre : List Cb), (∀ x ∈ pre, x.isNormal = true) →
    ∀ (fuel : Nat) (rest : List Cb) (log : List Nat),
    emitLoop (pre.length + fuel) 0 (pre ++ rest) log
      = (pre ++ (emitLoop fuel 0 rest (log ++ pre.map Cb.id)).1,
         (emitLoop fuel 0 rest (log ++ pre.map Cb.id)).2) := by
  intro pre
  induction pre with
  | nil => intro _ fuel rest log; simp
  | cons x pre ih =>
      intro hpre fuel rest log
      have hx : x.isNormal = true := hpre x (List.mem_cons_self x pre)
      obtain ⟨i, rfl⟩ : ∃ i, x = Cb.normal i := by
        cases x with
        | normal i => exact ⟨i, rfl⟩
        | selfRemoving i => simp [Cb.isNormal] at hx
      have hlen : (Cb.normal i :: pre).length + fuel = (pre.length + fuel) + 1 := by
        simp [List.length_cons]
        omega
      rw [hlen]
      simp only [List.cons_append, emitLoop, List.getElem?_cons_zero]
      rw [emitLoop_cons_normal (pre.length + fuel) i 0 (pre ++ rest) (log ++ [i])]
      rw [ih (fun y hy => hpre y (List.mem_cons_of_mem _ hy)) fuel rest (log ++ [i])]
      simp [Cb.id]

theorem removeFirst_cons_self {α : Type} [DecidableEq α] (c : α) (l : List α) :
    removeFirst (c :: l) c = l := by
  simp [removeFirst]

theorem emitLoop_head_selfRemoving (fuel : Nat) (a : Nat) (l : List Cb) (log : List Nat) :
    emitLoop (fuel + 1) 0 (Cb.selfRemoving a :: l) log
      = emitLoop fuel (0 + 1) (removeFirst (Cb.selfRemoving a :: l) (Cb.selfRemoving a))
          (log ++ [a]) := by
  simp only [emitLoop, List.getElem?_cons_zero]

theorem emitDispatch_selfRemoving (pre post : List Cb) (a b : Nat)
    (hpre : ∀ x ∈ pre, x.isNormal = true) (hpost : ∀ x ∈ post, x.isNormal = true) :
    emitDispatch (pre ++ Cb.selfRemoving a :: Cb.normal b :: post)
      = (pre ++ Cb.normal b :: post, pre.map Cb.id ++ a :: post.map Cb.id) := by
  unfold emitDispatch
  have hlen : (pre ++ Cb.selfRemoving a :: Cb.normal b :: post).length
      = pre.length + (post.length + 2) := by
    simp
  rw [hlen, emitLoop_prefix pre hpre (post.length + 2)
    (Cb.selfRemoving a :: Cb.normal b :: post) []]
  have h2 : post.length + 2 = (post.length + 1) + 1 := rfl
  rw [h2, emitLoop_head_selfRemoving, removeFirst_cons_self]
  rw [emitLoop_cons_normal (post.length + 1) b 0 post]
  rw [emitLoop_all_normal post hpost (post.length + 1) _ (Nat.le_succ _)]
  simp

/-! ### C9 — self-removal during dispatch skips the next listener -/

/-- C9: in `GameClient.emit`, `callbacks.forEach` iterates by index while
`off` splices the array in place.  When a listener removes itself during
its own invocation — exactly what the wrapper installed by
`once(event, cb)` does — the elements after it shift left, so the
listener registered immediately after it is skipped for that frame: the
invocation log of dispatching one matching frame is the ids before the
self-remover, the self-remover's id, and then only the ids *after* the
skipped neighbour. -/
theorem gameClient_self_removal_skips_next (pre post : List Cb) (a b : Nat)
    (hpre : ∀ x ∈ pre, x.isNormal = true) (hpost : ∀ x ∈ post, x.isNormal = true)
    (hb1 : b ∉ pre.map Cb.id) (hb2 : b ∉ post.map Cb.id) (hba : b ≠ a) :
    (emitDispatch (pre ++ Cb.selfRemoving a :: Cb.normal b :: post)).2
        = pre.map Cb.id ++ a :: post.map Cb.id
    ∧ b ∉ (emitDispatch (pre ++ Cb.selfRemoving a :: Cb.normal b :: post)).2 := by
  rw [emitDispatch_selfRemoving pre post a b hpre hpost]
  exact ⟨rfl, by simp [hb1, hb2, hba]⟩

/-- Witness for C9: a once-style self-removing listener `0` followed by a
plain listener `1`; dispatching one frame invokes `0` only. -/
theorem gameClient_self_removal_skips_next_witness :
    (emitDispatch [Cb.selfRemoving 0, Cb.normal 1]).2 = [0]
    ∧ (1 : Nat) ∉ (emitDispatch [Cb.selfRemoving 0, Cb.normal 1]).2 :=
  have h := gameClient_self_removal_skips_next [] [] 0 1 (by simp) (by simp)
    (by simp) (by simp) (by decide)
  ⟨h.1, h.2⟩

/-! ### C10 — off removes exactly the first occurrence -/

theorem removeFirst_append_first {α : Type} [DecidableEq α] (l1 l2 : List α) (c : α)
    (hc : c ∉ l1) : removeFirst (l1 ++ c :: l2) c = l1 ++ l2 := by
  induction l1 with
  | nil => simp [removeFirst]
  | cons x l1 ih =>
      have hx : ¬ x = c := by
        intro h
        exact hc (h ▸ List.mem_cons_self x l1)
      simp only [List.cons_append]
      rw [removeFirst_cons_of_ne _ _ _ hx, ih (fun h => hc (List.mem_cons_of_mem x h))]

theorem map_id_count (l : List Cb) (hl : ∀ x ∈ l, x.isNormal = true) (i : Nat) :
    (l.map Cb.id).count i = l.count (Cb.normal i) := by
  induction l with
  | nil => rfl
  | cons x rest ih =>
      have hx : x.isNormal = true := hl x (List.mem_cons_self x rest)
      obtain ⟨j, rfl⟩ : ∃ j, x = Cb.normal j := by
        cases x with
        | normal j => exact ⟨j, rfl⟩
        | selfRemoving j => simp [Cb.isNormal] at hx
      have ihr := ih (fun y hy => hl y (List.mem_cons_of_mem _ hy))
      by_cases hji : j = i
      · subst hji
        simp [List.count_cons, ihr, Cb.id]
      · simp [List.count_cons, ihr, Cb.id, hji]

/-- C10: `GameClient.off` (and the unsubscribe closure returned by `on`)
performs `indexOf` + `splice(index, 1)`: with the same callback
registered more than once, one call removes exactly the first occurrence
and leaves every other registration in place; and a subsequent dispatch
of a matching frame invokes the callback once per remaining registration
(the invocation log contains its id exactly as many times as it still
occurs in the callback array). -/
theorem gameClient_off_removes_first_occurrence
    (l1 l2 : List Cb) (c : Cb) (hc : c ∉ l1)
    (l : List Cb) (hl : ∀ x ∈ l, x.isNormal = true) (i : Nat) :
    removeFirst (l1 ++ c :: l2) c = l1 ++ l2
    ∧ (emitDispatch l).2.count i = l.count (Cb.normal i) := by
  refine ⟨removeFirst_append_first l1 l2 c hc, ?_⟩
  unfold emitDispatch
  rw [emitLoop_all_normal l hl l.length [] (Nat.le_refl _)]
  simpa using map_id_count l hl i

/-- Witness for C10: callback `7` registered twice; one `off` removes
exactly one registration, and dispatch then invokes it once. -/
theorem gameClient_off_removes_first_occurrence_witness :
    removeFirst [Cb.normal 7, Cb.normal 7] (Cb.normal 7) = [Cb.normal 7]
    ∧ (emitDispatch [Cb.normal 7]).2.count 7 = [Cb.normal 7].count (Cb.normal 7)
    ∧ [Cb.normal 7].count (Cb.normal 7) = 1 :=
  have h := gameClient_off_removes_first_occurrence [] [Cb.normal 7] (Cb.normal 7)
    (by simp) [Cb.normal 7] (by simp [Cb.isNormal]) 7
  ⟨h.1, h.2, by decide⟩

/-- Witness for C3 amended at concrete inputs: three failed cycles of the
transport machine from a fresh state give delay `8000`; three GameClient
attempts that never open give the same; bounds hold after a mixed run;
a success resets to the floor. -/
theorem backoff_invariant_amended_witness :
    (ReconnectingWebSocket.init.failCycles 3).reconnectDelay = min (1000 * 2 ^ 3) 30000
    ∧ gcRun 1000 (List.replicate 3 .failNoOpen) = min (1000 * 2 ^ 3) 30000
    ∧ (1000 ≤ gcRun 1000 [GCAttempt.failNoOpen, GCAttempt.failAfterOpen, GCAttempt.success]
        ∧ gcRun 1000 [GCAttempt.failNoOpen, GCAttempt.failAfterOpen, GCAttempt.success] ≤ 30000)
    ∧ gcAttempt 5000 .success = 1000 :=
  ⟨backoff_invariant_amended.2.1 ReconnectingWebSocket.init 3 rfl,
   backoff_invariant_amended.2.2.2.1 3,
   backoff_invariant_amended.2.2.2.2.1 1000
     [GCAttempt.failNoOpen, GCAttempt.failAfterOpen, GCAttempt.success]
     (by decide) (by decide),
   (backoff_invariant_amended.2.2.2.2.2 5000).1⟩
